import Mathlib

/-!
Verification of the WebSG scripting host (src/engine/scripting/websg.ts):
the capability-checked resource access layer, the filtered scene-graph
traversal, and the parameter-block marshaling for resource creation.

Machine integers from the guest are modelled as `Nat` (u32 values and f32
bit patterns; the marshaling layer copies f32 values bitwise, so their
numeric interpretation never matters here).  Engine objects are keyed by
their resource id in a registry association list; object references in the
source (`node.firstChild`, `node.parent`, ...) become ids with 0 = null,
matching the id-level view the ABI itself exposes.
-/

namespace WebSG

/-- Resource type tags.  The `ResourceType` enumeration lives in
resource/schema.ts; only the distinctness of the tags is used here. -/
inductive ResourceType
  | node | scene | mesh | meshPrimitive | accessor | buffer | bufferView
  | material | texture | light | collider | interactable | uiCanvas
  | uiElement | uiButton | uiText | camera | skin
  deriving DecidableEq

/-- Host-side classification of a failed resource access, matching the three
error branches of getScriptResource (websg.ts:75-101). -/
inductive AccessError
  | NotAuthorized | NotFound | TypeMismatch
  deriving DecidableEq

/-- A live engine resource.  One flat record holds the fields of every
variant (mirroring the duck-typed JS objects); `resourceType` tags which
variant a given record is.  Hierarchy links (`firstChild`, `firstNode`,
`nextSibling`, `parent`, `parentScene`) and resource references
(`baseColorTexture`, `indices`, ...) are resource ids, 0 = null.
f32-valued fields hold raw bit patterns. -/
structure Resource where
  resourceType : ResourceType
  name : String := ""
  firstChild : Nat := 0
  firstNode : Nat := 0
  nextSibling : Nat := 0
  parent : Nat := 0
  parentScene : Nat := 0
  visible : Bool := false
  isStatic : Bool := false
  materialType : Nat := 0
  baseColorFactor : List Nat := []
  baseColorTexture : Option Nat := none
  metallicFactor : Nat := 0
  roughnessFactor : Nat := 0
  metallicRoughnessTexture : Option Nat := none
  normalTexture : Option Nat := none
  normalScale : Nat := 0
  occlusionTexture : Option Nat := none
  occlusionTextureStrength : Nat := 0
  emissiveTexture : Option Nat := none
  emissiveFactor : List Nat := []
  alphaMode : Nat := 0
  alphaCutoff : Nat := 0
  doubleSided : Bool := false
  lightType : Nat := 0
  primitives : List Nat := []
  attributes : List (Nat × Nat) := []
  indices : Option Nat := none
  material : Option Nat := none
  mode : Nat := 0
  color : List Nat := []
  fontSize : Nat := 0
  size : List Nat := []
  width : Nat := 0
  height : Nat := 0
  deriving DecidableEq

/-- The state an ABI call sees: the engine-wide registry
(`resourceMap`, an id-keyed association list, most recent entry first),
the calling script's capability set (`resourceIds`, the
wasmCtx.resourceManager.resourceIds set), and the next fresh id.
Id 0 is reserved as null, so `nextId` starts positive. -/
structure EngineState where
  nextId : Nat
  resourceMap : List (Nat × Resource)
  resourceIds : List Nat
  deriving DecidableEq

/-- Embeds getScriptResource (websg.ts:75-101) keeping the host-side
diagnostic distinct: not in the capability set, absent from the registry,
or tagged with a different resourceType than expected. -/
def checkAccess (st : EngineState) (expected : ResourceType) (resourceId : Nat) :
    Except AccessError Resource :=
  if !(st.resourceIds.contains resourceId) then
    .error .NotAuthorized
  else
    match st.resourceMap.lookup resourceId with
    | none => .error .NotFound
    | some resource =>
      if resource.resourceType ≠ expected then .error .TypeMismatch
      else .ok resource

/-- The guest-visible result of getScriptResource: the resource, or
`none` for every failure kind (websg.ts:75-101 returns undefined on all
three error branches). -/
def getScriptResource (st : EngineState) (expected : ResourceType) (resourceId : Nat) :
    Option Resource :=
  match checkAccess st expected resourceId with
  | .ok r => some r
  | .error _ => none

/-- Modelled from the spec: RemoteResource construction
(RemoteResourceClass / resource.game.ts are not among the sources).
Creating a resource allocates a fresh nonzero id, registers the resource
in the engine-wide registry, and inserts the id into the creating
script's capability set (spec sections 3 and 4.2). -/
def registerResource (st : EngineState) (r : Resource) : Nat × EngineState :=
  (st.nextId,
   { nextId := st.nextId + 1,
     resourceMap := (st.nextId, r) :: st.resourceMap,
     resourceIds := st.nextId :: st.resourceIds })

/-- registerResource returning the fresh id as the call's signed result,
the shape shared by the creation ABI calls. -/
def registerPair (st : EngineState) (r : Resource) : Int × EngineState :=
  (((registerResource st r).1 : Int), (registerResource st r).2)

/-- In-place mutation of the registry entry for `id` (JS setters mutate the
object held by the map). -/
def updateResource (st : EngineState) (id : Nat) (r : Resource) : EngineState :=
  { st with resourceMap := st.resourceMap.map (fun p => if p.1 = id then (id, r) else p) }

/-- Walks the `nextSibling` chain starting at id `cur`, returning the
visited (id, resource) pairs.  `fuel` bounds the walk; a live heap is
finite and its chains acyclic, so `st.nextId` (an upper bound on the
number of ids ever allocated) is always enough fuel. -/
def siblingChain (st : EngineState) : Nat → Nat → List (Nat × Resource)
  | 0, _ => []
  | fuel + 1, cur =>
    if cur = 0 then []
    else
      match st.resourceMap.lookup cur with
      | none => []
      | some r => (cur, r) :: siblingChain st fuel r.nextSibling

/-- The raw sibling chain of a parent's children: a Node chains from
`firstChild`, a Scene from `firstNode` (the cursor initialisation shared
by websg.ts:154-218). -/
def rawChildren (st : EngineState) (parent : Resource) : List (Nat × Resource) :=
  siblingChain st st.nextId
    (if parent.resourceType = ResourceType.node then parent.firstChild else parent.firstNode)

/-- Loop body of getScriptChildCount (websg.ts:154-170): count only the
chain entries whose id is in the calling script's capability set. -/
def getScriptChildCountLoop (ids : List Nat) : List (Nat × Resource) → Nat
  | [] => 0
  | (eid, _) :: rest =>
    (if ids.contains eid then 1 else 0) + getScriptChildCountLoop ids rest

/-- getScriptChildCount (websg.ts:154-170). -/
def getScriptChildCount (st : EngineState) (node : Resource) : Nat :=
  getScriptChildCountLoop st.resourceIds (rawChildren st node)

/-- Loop of getScriptChildren (websg.ts:172-196): while the cursor is live
and fewer than `maxCount` ids are written, write each capability-visible
id at slot `i` and advance `i`.  Result: the ids written in order, and the
returned counter (the number of ids written). -/
def getScriptChildrenLoop (ids : List Nat) (maxCount : Nat) :
    List (Nat × Resource) → Nat → List Nat × Nat
  | [], i => ([], i)
  | (eid, _) :: rest, i =>
    if i < maxCount then
      if ids.contains eid then
        let (ws, n) := getScriptChildrenLoop ids maxCount rest (i + 1)
        (eid :: ws, n)
      else
        getScriptChildrenLoop ids maxCount rest i
    else ([], i)

/-- getScriptChildren (websg.ts:172-196): the ids written into the guest
array at nodeArrPtr, plus the returned count. -/
def getScriptChildren (st : EngineState) (node : Resource) (maxCount : Nat) :
    List Nat × Nat :=
  getScriptChildrenLoop st.resourceIds maxCount (rawChildren st node) 0

/-- Loop of scriptGetChildAt (websg.ts:198-218): while the cursor is live
and `i < index`, advance, counting only capability-visible entries; on
exit return the cursor's id when `i = index`, the cursor is live, and the
cursor's own id is in the capability set, else 0. -/
def scriptGetChildAtLoop (ids : List Nat) (index : Nat) :
    List (Nat × Resource) → Nat → Nat
  | [], _ => 0
  | (eid, _) :: rest, i =>
    if i < index then
      scriptGetChildAtLoop ids index rest (if ids.contains eid then i + 1 else i)
    else
      if i = index then (if ids.contains eid then eid else 0) else 0

/-- scriptGetChildAt (websg.ts:198-218). -/
def scriptGetChildAt (st : EngineState) (parent : Resource) (index : Nat) : Nat :=
  scriptGetChildAtLoop st.resourceIds index (rawChildren st parent) 0

/-- scene_get_node_count (websg.ts:444-452): -1 when the scene handle
fails the capability check, else the filtered child count. -/
def scene_get_node_count (st : EngineState) (sceneId : Nat) : Int :=
  match getScriptResource st .scene sceneId with
  | none => -1
  | some scene => (getScriptChildCount st scene : Int)

/-- scene_get_nodes (websg.ts:453-461): (-1, no writes) on a bad handle,
else the filtered, truncated child ids and their count. -/
def scene_get_nodes (st : EngineState) (sceneId maxCount : Nat) : Int × List Nat :=
  match getScriptResource st .scene sceneId with
  | none => (-1, [])
  | some scene =>
    (((getScriptChildren st scene maxCount).2 : Int),
     (getScriptChildren st scene maxCount).1)

/-- scene_get_node (websg.ts:462-470): a u32-returning call, so errors are
returned as 0 / null eid. -/
def scene_get_node (st : EngineState) (sceneId index : Nat) : Nat :=
  match getScriptResource st .scene sceneId with
  | none => 0
  | some scene => scriptGetChildAt st scene index

/-- node_get_child_count (websg.ts:573-581). -/
def node_get_child_count (st : EngineState) (nodeId : Nat) : Int :=
  match getScriptResource st .node nodeId with
  | none => -1
  | some node => (getScriptChildCount st node : Int)

/-- node_get_children (websg.ts:582-590). -/
def node_get_children (st : EngineState) (nodeId maxCount : Nat) : Int × List Nat :=
  match getScriptResource st .node nodeId with
  | none => (-1, [])
  | some node =>
    (((getScriptChildren st node maxCount).2 : Int),
     (getScriptChildren st node maxCount).1)

/-- node_get_child (websg.ts:591-599). -/
def node_get_child (st : EngineState) (nodeId index : Nat) : Nat :=
  match getScriptResource st .node nodeId with
  | none => 0
  | some node => scriptGetChildAt st node index

/-- node_get_parent (websg.ts:600-618): 0 on a bad handle, 0 when the node
has no parent, 0 when the parent's id is not in the calling script's
capability set, else the parent's id. -/
def node_get_parent (st : EngineState) (nodeId : Nat) : Nat :=
  match getScriptResource st .node nodeId with
  | none => 0
  | some node =>
    if node.parent = 0 then 0
    else if !(st.resourceIds.contains node.parent) then 0
    else node.parent

/-- node_get_parent_scene (websg.ts:619-637). -/
def node_get_parent_scene (st : EngineState) (nodeId : Nat) : Nat :=
  match getScriptResource st .node nodeId with
  | none => 0
  | some node =>
    if node.parentScene = 0 then 0
    else if !(st.resourceIds.contains node.parentScene) then 0
    else node.parentScene

/-- node_set_visible (websg.ts:830-840): -1 and no mutation on a failed
capability check, else set the visible flag to the truthiness of the
argument and return 0. -/
def node_set_visible (st : EngineState) (nodeId visible : Nat) : Int × EngineState :=
  match getScriptResource st .node nodeId with
  | none => (-1, st)
  | some node => (0, updateResource st nodeId { node with visible := visible != 0 })

/-- Guest memory as the CursorView sees it: `u32 o` is the 32-bit value
read at byte offset `o` (f32 reads return the same bit pattern), and
`str p n` is the UTF-8 decoding of the `n` bytes at `p` (readString in
WASMModuleContext). -/
structure Mem where
  u32 : Nat → Nat
  str : Nat → Nat → String

/-- readFloat32ArrayInto / readFloat32Array: the `n` consecutive f32 bit
patterns starting at byte offset `ptr`. -/
def readF32Slice (mem : Mem) (ptr n : Nat) : List Nat :=
  (List.range n).map (fun i => mem.u32 (ptr + 4 * i))

/-- Modelled from the spec: the `LightType` enumeration (resource/schema.ts
is not among the sources); the glTF light kinds directional, point and
spot encode as 0, 1, 2, and `LightType[t] === undefined` holds exactly
for every other numeric value. -/
def LightTypeValid (t : Nat) : Bool := t < 3

/-- Modelled from the spec: the `MeshPrimitiveAttributeIndex` enumeration
(resource/schema.ts is not among the sources); the glTF attribute keys
POSITION .. WEIGHTS_0 encode as 0..7. -/
def MeshPrimitiveAttributeIndexValid (k : Nat) : Bool := k < 8

/-- Modelled from the spec: the `MeshPrimitiveMode` enumeration
(resource/schema.ts is not among the sources); the glTF primitive modes
POINTS .. TRIANGLE_FAN encode as 0..6. -/
def MeshPrimitiveModeValid (m : Nat) : Bool := m < 7

/-- create_light (websg.ts:1421-1430): an invalid light type returns -1
(the signed sentinel) even though the call's success result is a u32
resource id; a valid type registers a light and returns its id. -/
def create_light (st : EngineState) (t : Nat) : Int × EngineState :=
  if !(LightTypeValid t) then (-1, st)
  else
    let (eid, st') := registerResource st { resourceType := .light, lightType := t }
    ((eid : Int), st')

/-- create_ui_canvas (websg.ts:1695-1712): reads size, width and height
from the parameter block and registers a UI canvas.  The source wraps the
construction in try/catch and returns -1 (not 0) from the catch arm; the
embedded construction itself cannot fail. -/
def create_ui_canvas (mem : Mem) (st : EngineState) (propsPtr : Nat) : Int × EngineState :=
  let size := readF32Slice mem propsPtr 2
  let width := mem.u32 (propsPtr + 8)
  let height := mem.u32 (propsPtr + 12)
  let (eid, st') := registerResource st { resourceType := .uiCanvas, size, width, height }
  ((eid : Int), st')

/-- ui_text_set_font_size (websg.ts:2109-2119): the usual setter shape,
ending in an explicit `return 0`. -/
def ui_text_set_font_size (st : EngineState) (textId fontSize : Nat) :
    Option Int × EngineState :=
  match getScriptResource st .uiText textId with
  | none => (some (-1), st)
  | some flex => (some 0, updateResource st textId { flex with fontSize })

/-- ui_text_set_color (websg.ts:2144-2152): -1 on a failed capability
check; on the success path it copies four f32s from guest memory into the
text's color and then ends without a return statement, so the JS function
produces no value (`none` here) instead of the status 0 every sibling
setter returns. -/
def ui_text_set_color (mem : Mem) (st : EngineState) (textId colorPtr : Nat) :
    Option Int × EngineState :=
  match getScriptResource st .uiText textId with
  | none => (some (-1), st)
  | some flex =>
    (none, updateResource st textId { flex with color := readF32Slice mem colorPtr 4 })

/-- The construction record parsed for one mesh primitive
(MeshPrimitiveProps, websg.ts:359-364), with resource references kept as
ids. -/
structure MeshPrimitiveProps where
  attributes : List (Nat × Nat)
  indices : Option Nat
  material : Option Nat
  mode : Nat
  deriving DecidableEq

/-- The attribute loop of world_create_mesh (websg.ts:991-1009): for each
attribute the cursor moves to attributesPtr + idx * 8, reads the attribute
key (rejecting unknown keys) and the accessor id (which must pass the
capability check).  Returns the parsed (key, accessor id) pairs and the
cursor position after the last read, since the subsequent primitive
fields are read from wherever the cursor ended. -/
def parsePrimitiveAttributes (mem : Mem) (st : EngineState) (attributesPtr : Nat) :
    Nat → Nat → Nat → Option (List (Nat × Nat) × Nat)
  | 0, _, c => some ([], c)
  | n + 1, idx, _ =>
    let c := attributesPtr + idx * 8
    let attributeKey := mem.u32 c
    if !(MeshPrimitiveAttributeIndexValid attributeKey) then none
    else
      let attributeAccessorId := mem.u32 (c + 4)
      match getScriptResource st .accessor attributeAccessorId with
      | none => none
      | some _ =>
        match parsePrimitiveAttributes mem st attributesPtr n (idx + 1) (c + 8) with
        | none => none
        | some (rest, cEnd) => some ((attributeKey, attributeAccessorId) :: rest, cEnd)

/-- One iteration of the primitive loop of world_create_mesh
(websg.ts:982-1048): move to primitivesPtr + idx * 20, parse the
attribute list, then the optional indices accessor, the optional
material (both through the capability check) and the primitive mode
(rejecting out-of-range values).  Any failure aborts the whole call. -/
def parseMeshPrimitive (mem : Mem) (st : EngineState) (primitivesPtr idx : Nat) :
    Option MeshPrimitiveProps :=
  let c := primitivesPtr + idx * 20
  let attributesPtr := mem.u32 c
  let attributeCount := mem.u32 (c + 4)
  match parsePrimitiveAttributes mem st attributesPtr attributeCount 0 (c + 8) with
  | none => none
  | some (attributes, c) =>
    let indicesAccessorId := mem.u32 c
    let indicesOk : Option (Option Nat) :=
      if indicesAccessorId ≠ 0 then
        match getScriptResource st .accessor indicesAccessorId with
        | none => none
        | some _ => some (some indicesAccessorId)
      else some none
    match indicesOk with
    | none => none
    | some indices =>
      let materialId := mem.u32 (c + 4)
      let materialOk : Option (Option Nat) :=
        if materialId ≠ 0 then
          match getScriptResource st .material materialId with
          | none => none
          | some _ => some (some materialId)
        else some none
      match materialOk with
      | none => none
      | some material =>
        let mode := mem.u32 (c + 8)
        if !(MeshPrimitiveModeValid mode) then none
        else some { attributes, indices, material, mode }

/-- The primitive loop of world_create_mesh: parse primitives
idx, idx+1, ... until `n` have been parsed, aborting on the first
failure. -/
def parseMeshPrimitives (mem : Mem) (st : EngineState) (primitivesPtr : Nat) :
    Nat → Nat → Option (List MeshPrimitiveProps)
  | 0, _ => some []
  | n + 1, idx =>
    match parseMeshPrimitive mem st primitivesPtr idx with
    | none => none
    | some p =>
      match parseMeshPrimitives mem st primitivesPtr n (idx + 1) with
      | none => none
      | some ps => some (p :: ps)

/-- The allocation phase of world_create_mesh (websg.ts:1050-1057): after
every primitive has been validated, construct a RemoteMeshPrimitive for
each parsed record. -/
def createMeshPrimitives (st : EngineState) :
    List MeshPrimitiveProps → List Nat × EngineState
  | [] => ([], st)
  | p :: ps =>
    let (eid, st') := registerResource st
      { resourceType := .meshPrimitive, attributes := p.attributes,
        indices := p.indices, material := p.material, mode := p.mode }
    let (eids, st'') := createMeshPrimitives st' ps
    (eid :: eids, st'')

/-- world_create_mesh (websg.ts:967-1066): read the primitive array
pointer and count, skip the weights pair, read the name, parse and
validate every primitive, and only then allocate the primitives and the
mesh.  Validation failures return -1 (the catch arm returns 0) without
touching the registry. -/
def world_create_mesh (mem : Mem) (st : EngineState) (propsPtr : Nat) :
    Int × EngineState :=
  match parseMeshPrimitives mem st (mem.u32 propsPtr) (mem.u32 (propsPtr + 4)) 0 with
  | none => (-1, st)
  | some primitiveProps =>
    registerPair (createMeshPrimitives st primitiveProps).2
      { resourceType := .mesh,
        name := mem.str (mem.u32 (propsPtr + 16)) (mem.u32 (propsPtr + 20)),
        primitives := (createMeshPrimitives st primitiveProps).1 }

/-- readTextureRef (websg.ts:249-259): read a texture id; a nonzero id is
resolved through the capability check, but a failed lookup just yields an
absent texture without aborting the caller.  Returns the optional texture
id and the advanced cursor. -/
def readTextureRef (mem : Mem) (st : EngineState) (c : Nat) : Option Nat × Nat :=
  let textureId := mem.u32 c
  (if textureId ≠ 0 then
     match getScriptResource st .texture textureId with
     | some _ => some textureId
     | none => none
   else none,
   c + 4)

/-- The item loop of readExtensions (websg.ts:220-238): for each item the
cursor moves to itemsPtr + i * 8 and reads the extension name (a
pointer/length pair); `extraBytes name` is how far the per-name parse
routine then advances the cursor (24 bytes for KHR_textures_transform in
readTextureInfoExtensions, websg.ts:261-274; 0 for every name whose parse
reads nothing).  Returns the names in order and the final cursor. -/
def readExtensionItems (mem : Mem) (itemsPtr : Nat) (extraBytes : String → Nat) :
    Nat → Nat → Nat → List String × Nat
  | 0, _, c => ([], c)
  | n + 1, i, _ =>
    let c := itemsPtr + i * 8
    let name := mem.str (mem.u32 c) (mem.u32 (c + 4))
    let c' := c + 8 + extraBytes name
    let (rest, cEnd) := readExtensionItems mem itemsPtr extraBytes n (i + 1) c'
    (name :: rest, cEnd)

/-- readExtensions (websg.ts:220-238): read the items pointer and count,
then iterate the items.  With count 0 the cursor simply advances past the
two u32s; otherwise it ends wherever the last item's parse left it. -/
def readExtensions (mem : Mem) (extraBytes : String → Nat) (c : Nat) :
    List String × Nat :=
  let itemsPtr := mem.u32 c
  let count := mem.u32 (c + 4)
  readExtensionItems mem itemsPtr extraBytes count 0 (c + 8)

/-- Cursor advance of the KHR_textures_transform payload read by
readTextureInfoExtensions (websg.ts:261-274): two f32s, one f32, two
f32s and one u32. -/
def texTransformBytes (name : String) : Nat :=
  if name = "KHR_textures_transform" then 24 else 0

/-- A JS exception escaping an ABI call: the runtime error kinds the
material path can raise. -/
inductive JsError
  | ReferenceError | TypeError
  deriving DecidableEq

/-- readTextureInfo (websg.ts:276-295): the function body sits between
unresolved merge-conflict markers and is broken on both sides.  The
upstream side is a syntax error and returns an unbound `texture`; the
stashed side calls readTextureRef (discarding its result), skips
texCoord, reads the KHR_textures_transform-aware extensions block and
the extras pair, and then returns the unbound identifiers texture and
extensions — a ReferenceError at the return statement, after the reads
have happened.  Embedded as those reads followed by the raised error;
the function never produces a value. -/
def readTextureInfo (mem : Mem) (st : EngineState) (c : Nat) : JsError :=
  let r := readTextureRef mem st c
  let e := readExtensions mem texTransformBytes (r.2 + 4)
  let _ := (r.1, e.2 + 8)
  .ReferenceError

/-- world_create_material (websg.ts:1254-1308): reads the base color
factor, then calls readTextureInfo for the base color texture — which
raises a ReferenceError on every call (see readTextureInfo).  The
function has no try/catch, so the exception escapes the ABI call: no
material is ever constructed or registered and no id or status is
returned, the state is left as it was.  (The rest of the path is equally
unexecutable: under the stashed conflict resolution readExtras, called at
websg.ts:311, 342 and 1287, no longer exists, and websg.ts:1263
array-destructures the plain object returned by readOcclusionTextureInfo,
a TypeError.  No alphaMode validation exists anywhere on the path — the
u32 read at websg.ts:1272 would be passed to the material verbatim.) -/
def world_create_material (mem : Mem) (st : EngineState) (propsPtr : Nat) :
    Except JsError Int × EngineState :=
  let _baseColorFactor := readF32Slice mem propsPtr 4
  (.error (readTextureInfo mem st (propsPtr + 16)), st)

/-! Concrete test fixtures: small engine states and guest memories used to
instantiate the theorems below. -/

/-- A plain node resource, as script A's node with id 7 in the spec
scenario. -/
def exNode7 : Resource := { resourceType := .node }

/-- Script A's view: node 7 is registered and in A's capability set. -/
def exStA : EngineState :=
  { nextId := 8, resourceMap := [(7, exNode7)], resourceIds := [7] }

/-- Script B's view: the same registry, but 7 is not in B's capability
set. -/
def exStB : EngineState :=
  { nextId := 8, resourceMap := [(7, exNode7)], resourceIds := [] }

/-- A child node whose sibling link points at `nextSibling`. -/
def childNode (nextSibling : Nat) : Resource := { resourceType := .node, nextSibling }

/-- A scene whose node chain starts at id 1. -/
def exScene : Resource := { resourceType := .scene, firstNode := 1 }

/-- A node whose child chain starts at id 1 (sharing the scene's chain). -/
def exParentNode : Resource := { resourceType := .node, firstChild := 1 }

/-- Hierarchy fixture: scene 10 and node 20 both parent the sibling chain
1 → 2 → 3 → 4 → 5; the script's capability set holds the parents and the
odd children only, so of the 5 raw children exactly 1, 3, 5 are visible. -/
def exHier : EngineState :=
  { nextId := 21,
    resourceMap :=
      [(10, exScene), (20, exParentNode),
       (1, childNode 2), (2, childNode 3), (3, childNode 4),
       (4, childNode 5), (5, childNode 0)],
    resourceIds := [10, 20, 1, 3, 5] }

/-- Access-check fixture: id 1 is a registered scene, id 2 is authorized
but absent from the registry, id 5 is entirely unknown. -/
def exStC7 : EngineState :=
  { nextId := 3, resourceMap := [(1, { resourceType := .scene })], resourceIds := [1, 2] }

/-- Parent-traversal fixture: node 1 is owned and its parent node 2 and
parent scene 3 exist but are not in the owning script's capability set;
node 4 is owned and parentless. -/
def exStParent : EngineState :=
  { nextId := 5,
    resourceMap :=
      [(1, { resourceType := .node, parent := 2, parentScene := 3 }),
       (2, { resourceType := .node, firstChild := 1 }),
       (3, { resourceType := .scene, firstNode := 1 }),
       (4, { resourceType := .node })],
    resourceIds := [1, 4] }

/-- Mesh-creation fixture state: accessor 1 is registered and owned. -/
def exMeshSt : EngineState :=
  { nextId := 5, resourceMap := [(1, { resourceType := .accessor })], resourceIds := [1] }

/-- Mesh-creation fixture memory: a props block at 0 with two primitives
at 100.  Primitive 0 (one POSITION attribute backed by accessor 1,
mode 4) validates; primitive 1 has primitive mode 99, which is not a
known MeshPrimitiveMode. -/
def exMeshMem : Mem :=
  { u32 := fun o =>
      if o = 0 then 100 else if o = 4 then 2
      else if o = 100 then 200 else if o = 104 then 1
      else if o = 204 then 1 else if o = 216 then 4
      else if o = 136 then 99 else 0,
    str := fun _ _ => "" }

/-- Material-creation fixture memory: an all-defaults material parameter
block at 0 (no textures, empty extension blocks), with `a` as the u32 at
byte offset 164, where the block's alphaMode slot sits. -/
def matMem (a : Nat) : Mem :=
  { u32 := fun o => if o = 164 then a else 0, str := fun _ _ => "" }

/-- Material-creation fixture state: an empty registry about to allocate
id 5. -/
def exMatSt : EngineState :=
  { nextId := 5, resourceMap := [], resourceIds := [] }

/-- UI-text fixture: text 2 is registered and owned, with a black color. -/
def exStText : EngineState :=
  { nextId := 3,
    resourceMap := [(2, { resourceType := .uiText, color := [0, 0, 0, 0] })],
    resourceIds := [2] }

/-- UI-text fixture memory: the u32 at offset o is o itself, so the four
f32 bit patterns at colorPtr 100 are 100, 104, 108, 112. -/
def exTextMem : Mem := { u32 := fun o => o, str := fun _ _ => "" }

/-! Helper lemmas about the embedded operations. -/

/-- Inversion of a successful capability check: getScriptResource yields a
resource exactly when the id is in the capability set, the registry maps
it to that resource, and the resource carries the expected type tag. -/
theorem getScriptResource_some_iff (st : EngineState) (t : ResourceType) (id : Nat)
    (r : Resource) :
    getScriptResource st t id = some r ↔
      st.resourceIds.contains id = true ∧ st.resourceMap.lookup id = some r ∧
        r.resourceType = t := by
  unfold getScriptResource checkAccess
  by_cases h1 : id ∈ st.resourceIds
  · rcases h2 : st.resourceMap.lookup id with _ | res
    · simp [h1, h2]
    · by_cases h3 : res.resourceType = t
      · simp [h1, h2, h3]
        intro h
        rw [← h]
        exact h3
      · simp [h1, h2, h3]
        intro h
        rw [← h]
        exact h3
  · simp [h1]

/-- The filtered child count computed by the loop is the length of the
capability-filtered chain. -/
theorem getScriptChildCountLoop_eq_filter (ids : List Nat) (l : List (Nat × Resource)) :
    getScriptChildCountLoop ids l = (l.filter (fun p => ids.contains p.1)).length := by
  induction l with
  | nil => rfl
  | cons hd tl ih =>
    obtain ⟨eid, r⟩ := hd
    by_cases h : eid ∈ ids
    · simp [getScriptChildCountLoop, h, ih]
      omega
    · simp [getScriptChildCountLoop, h, ih]

/-- The write loop of getScriptChildren produces the capability-filtered
chain truncated to the remaining capacity, and its returned counter is
the starting counter plus the number of ids written. -/
theorem getScriptChildrenLoop_spec (ids : List Nat) (maxCount : Nat)
    (l : List (Nat × Resource)) :
    ∀ i, i ≤ maxCount →
      getScriptChildrenLoop ids maxCount l i =
        (((l.filter (fun p => ids.contains p.1)).map Prod.fst).take (maxCount - i),
         i + (((l.filter (fun p => ids.contains p.1)).map Prod.fst).take (maxCount - i)).length) := by
  induction l with
  | nil => intro i hi; simp [getScriptChildrenLoop]
  | cons hd tl ih =>
    intro i hi
    obtain ⟨eid, r⟩ := hd
    rcases Nat.lt_or_ge i maxCount with hlt | hge
    · by_cases hc : eid ∈ ids
      · have h1 : maxCount - i = (maxCount - (i + 1)) + 1 := by omega
        simp [getScriptChildrenLoop, hlt, hc, ih (i + 1) (by omega), h1,
          List.take_succ_cons]
        omega
      · simp [getScriptChildrenLoop, hlt, hc, ih i hi]
    · have heq : i = maxCount := Nat.le_antisymm hi hge
      subst heq
      simp [getScriptChildrenLoop, Nat.lt_irrefl, Nat.sub_self]

/-- Updating the registry entry for an id that is present makes subsequent
lookups of that id return the updated resource. -/
theorem lookup_map_update (l : List (Nat × Resource)) (id : Nat) (r' : Resource)
    (h : l.lookup id ≠ none) :
    (l.map (fun p => if p.1 = id then (id, r') else p)).lookup id = some r' := by
  induction l with
  | nil => simp [List.lookup] at h
  | cons hd tl ih =>
    obtain ⟨k, v⟩ := hd
    by_cases hk : k = id
    · subst hk
      rw [List.map_cons]
      have hhd : (if ((k, v).1 = k) then (k, r') else (k, v)) = (k, r') := if_pos rfl
      rw [hhd]
      simp [List.lookup]
    · have hk' : (id == k) = false := by
        simp only [beq_eq_false_iff_ne, ne_eq]
        intro he
        exact hk he.symm
      rw [List.map_cons]
      have hhd : (if ((k, v).1 = id) then (id, r') else (k, v)) = (k, v) :=
        if_neg (by simpa using hk)
      rw [hhd]
      simp only [List.lookup, hk'] at h ⊢
      exact ih h

/-- If any primitive in the window fails to parse, the whole primitive
loop fails (the first failure aborts the call). -/
theorem parseMeshPrimitives_none_of_bad (mem : Mem) (st : EngineState)
    (primitivesPtr : Nat) :
    ∀ n idx, (∃ i, idx ≤ i ∧ i < idx + n ∧ parseMeshPrimitive mem st primitivesPtr i = none) →
      parseMeshPrimitives mem st primitivesPtr n idx = none := by
  intro n
  induction n with
  | zero =>
    intro idx h
    obtain ⟨i, h1, h2, _⟩ := h
    omega
  | succ n ih =>
    intro idx h
    obtain ⟨i, h1, h2, h3⟩ := h
    unfold parseMeshPrimitives
    rcases hp : parseMeshPrimitive mem st primitivesPtr idx with _ | p
    · rfl
    · have hne : idx ≠ i := by
        intro he
        rw [he, h3] at hp
        exact Option.noConfusion hp
      rw [ih (idx + 1) ⟨i, by omega, by omega, h3⟩]

/-- C1: a resource id outside the calling script's capability set makes
node_set_visible return the sentinel -1 while performing no mutation of
any resource (the state is returned untouched); the owning script's call
node_set_visible(id, 1) returns 0 and sets the node's visible flag to
true. -/
theorem C1_set_visible_capability_checked (st : EngineState)
    (id v maxCount ix colorPtr fontSize : Nat) (mem : Mem) :
    (st.resourceIds.contains id = false →
      node_set_visible st id v = (-1, st) ∧
      scene_get_node_count st id = -1 ∧
      node_get_children st id maxCount = (-1, []) ∧
      scene_get_node st id ix = 0 ∧
      node_get_parent st id = 0 ∧
      ui_text_set_color mem st id colorPtr = (some (-1), st) ∧
      ui_text_set_font_size st id fontSize = (some (-1), st)) ∧
    (∀ node, getScriptResource st .node id = some node →
      (node_set_visible st id 1).1 = 0 ∧
      ((node_set_visible st id 1).2).resourceMap.lookup id =
        some { node with visible := true }) := by
  constructor
  · intro h
    have hn : ∀ t, getScriptResource st t id = none := by
      intro t
      unfold getScriptResource checkAccess
      rw [h]
      rfl
    refine ⟨?_, ?_, ?_, ?_, ?_, ?_, ?_⟩
    · unfold node_set_visible
      rw [hn]
    · unfold scene_get_node_count
      rw [hn]
    · unfold node_get_children
      rw [hn]
    · unfold scene_get_node
      rw [hn]
    · unfold node_get_parent
      rw [hn]
    · unfold ui_text_set_color
      rw [hn]
    · unfold ui_text_set_font_size
      rw [hn]
  · intro node hn
    have hmap : st.resourceMap.lookup id = some node :=
      ((getScriptResource_some_iff st .node id node).mp hn).2.1
    unfold node_set_visible
    rw [hn]
    refine ⟨rfl, ?_⟩
    show (updateResource st id { node with visible := (1 != 0) }).resourceMap.lookup id = _
    unfold updateResource
    exact lookup_map_update _ _ _ (by rw [hmap]; exact fun hc => Option.noConfusion hc)

/-- C1 witness: the spec scenario at node id 7 — script B's call returns
-1 and changes nothing, script A's call returns 0 and node 7's visible
flag becomes true. -/
theorem C1_set_visible_capability_checked_witness :
    node_set_visible exStB 7 1 = (-1, exStB) ∧
    node_get_parent exStB 7 = 0 ∧
    (node_set_visible exStA 7 1).1 = 0 ∧
    ((node_set_visible exStA 7 1).2).resourceMap.lookup 7 =
      some { exNode7 with visible := true } :=
  ⟨((C1_set_visible_capability_checked exStB 7 1 0 0 0 0 exTextMem).1 (by decide)).1,
   ((C1_set_visible_capability_checked exStB 7 1 0 0 0 0 exTextMem).1 (by decide)).2.2.2.2.1,
   ((C1_set_visible_capability_checked exStA 7 1 0 0 0 0 exTextMem).2 exNode7 (by decide)).1,
   ((C1_set_visible_capability_checked exStA 7 1 0 0 0 0 exTextMem).2 exNode7 (by decide)).2⟩

/-- C6: for an authorized scene handle, scene_get_node_count returns the
number of chain children whose ids are in the calling script's capability
set — the capability-filtered count, not the raw child count. -/
theorem C6_node_count_filters_capability (st : EngineState) (sceneId : Nat)
    (scene : Resource) (h : getScriptResource st .scene sceneId = some scene) :
    scene_get_node_count st sceneId =
      ((((rawChildren st scene).filter (fun p => st.resourceIds.contains p.1)).length : Nat) : Int) := by
  unfold scene_get_node_count
  rw [h]
  show ((getScriptChildCount st scene : Nat) : Int) = _
  unfold getScriptChildCount
  rw [getScriptChildCountLoop_eq_filter]

/-- C6 witness: the spec scenario — a scene with 5 raw children of which
only 3 are in the caller's capability set reports a count of 3. -/
theorem C6_node_count_filters_capability_witness :
    (rawChildren exHier exScene).length = 5 ∧ scene_get_node_count exHier 10 = 3 :=
  ⟨by decide,
   (C6_node_count_filters_capability exHier 10 exScene (by decide)).trans (by decide)⟩

/-- C7: the access check distinguishes exactly the three failure cases —
id not in the capability set (NotAuthorized), id absent from the registry
(NotFound), resource tagged with a different type (TypeMismatch) — and
in every error case the caller-facing result is fail-closed: no resource
is returned. -/
theorem C7_access_error_cases_fail_closed (st : EngineState) (t : ResourceType)
    (id : Nat) :
    (st.resourceIds.contains id = false → checkAccess st t id = .error .NotAuthorized) ∧
    (st.resourceIds.contains id = true → st.resourceMap.lookup id = none →
      checkAccess st t id = .error .NotFound) ∧
    (∀ r, st.resourceIds.contains id = true → st.resourceMap.lookup id = some r →
      r.resourceType ≠ t → checkAccess st t id = .error .TypeMismatch) ∧
    (∀ e, checkAccess st t id = .error e → getScriptResource st t id = none) := by
  refine ⟨?_, ?_, ?_, ?_⟩
  · intro h
    unfold checkAccess
    rw [h]
    rfl
  · intro h1 h2
    unfold checkAccess
    rw [h1, h2]
    rfl
  · intro r h1 h2 h3
    unfold checkAccess
    rw [h1, h2]
    show (if r.resourceType ≠ t then Except.error AccessError.TypeMismatch
          else Except.ok r) = Except.error AccessError.TypeMismatch
    exact if_pos h3
  · intro e he
    unfold getScriptResource
    rw [he]

/-- C7 witness: all three error cases at concrete inputs, each denied. -/
theorem C7_access_error_cases_fail_closed_witness :
    checkAccess exStC7 .node 5 = .error .NotAuthorized ∧
    checkAccess exStC7 .node 2 = .error .NotFound ∧
    checkAccess exStC7 .node 1 = .error .TypeMismatch ∧
    getScriptResource exStC7 .node 1 = none :=
  ⟨(C7_access_error_cases_fail_closed exStC7 .node 5).1 (by decide),
   (C7_access_error_cases_fail_closed exStC7 .node 2).2.1 (by decide) (by decide),
   (C7_access_error_cases_fail_closed exStC7 .node 1).2.2.1 { resourceType := .scene }
     (by decide) (by decide) (by decide),
   (C7_access_error_cases_fail_closed exStC7 .node 1).2.2.2 .TypeMismatch
     ((C7_access_error_cases_fail_closed exStC7 .node 1).2.2.1 { resourceType := .scene }
       (by decide) (by decide) (by decide))⟩

/-- C9: the capability filter applies to upward traversal — for an
authorized node, node_get_parent and node_get_parent_scene return 0 both
when there is no parent and when the parent exists but its id is not in
the calling script's capability set; a nonzero result is always an id
the script owns. -/
theorem C9_parent_lookup_capability_filtered (st : EngineState) (nodeId : Nat) :
    (∀ node, getScriptResource st .node nodeId = some node →
      (node.parent = 0 → node_get_parent st nodeId = 0) ∧
      (node.parent ≠ 0 → st.resourceIds.contains node.parent = false →
        node_get_parent st nodeId = 0) ∧
      (node.parentScene = 0 → node_get_parent_scene st nodeId = 0) ∧
      (node.parentScene ≠ 0 → st.resourceIds.contains node.parentScene = false →
        node_get_parent_scene st nodeId = 0)) ∧
    (node_get_parent st nodeId ≠ 0 →
      st.resourceIds.contains (node_get_parent st nodeId) = true) ∧
    (node_get_parent_scene st nodeId ≠ 0 →
      st.resourceIds.contains (node_get_parent_scene st nodeId) = true) := by
  refine ⟨?_, ?_, ?_⟩
  · intro node hn
    refine ⟨?_, ?_, ?_, ?_⟩
    · intro hp
      unfold node_get_parent
      rw [hn]
      show (if node.parent = 0 then 0
            else if !(st.resourceIds.contains node.parent) then 0 else node.parent) = 0
      rw [if_pos hp]
    · intro hp hc
      unfold node_get_parent
      rw [hn]
      show (if node.parent = 0 then 0
            else if !(st.resourceIds.contains node.parent) then 0 else node.parent) = 0
      rw [if_neg hp, hc]
      rfl
    · intro hp
      unfold node_get_parent_scene
      rw [hn]
      show (if node.parentScene = 0 then 0
            else if !(st.resourceIds.contains node.parentScene) then 0
            else node.parentScene) = 0
      rw [if_pos hp]
    · intro hp hc
      unfold node_get_parent_scene
      rw [hn]
      show (if node.parentScene = 0 then 0
            else if !(st.resourceIds.contains node.parentScene) then 0
            else node.parentScene) = 0
      rw [if_neg hp, hc]
      rfl
  · intro hne
    unfold node_get_parent at hne ⊢
    rcases hr : getScriptResource st .node nodeId with _ | node
    · rw [hr] at hne
      exact absurd rfl hne
    · rw [hr] at hne
      by_cases h0 : node.parent = 0
      · simp [h0] at hne
      · by_cases hb : node.parent ∈ st.resourceIds
        · simp [h0, hb]
        · simp [h0, hb] at hne
  · intro hne
    unfold node_get_parent_scene at hne ⊢
    rcases hr : getScriptResource st .node nodeId with _ | node
    · rw [hr] at hne
      exact absurd rfl hne
    · rw [hr] at hne
      by_cases h0 : node.parentScene = 0
      · simp [h0] at hne
      · by_cases hb : node.parentScene ∈ st.resourceIds
        · simp [h0, hb]
        · simp [h0, hb] at hne

/-- C9 witness: node 1's parent node 2 and parent scene 3 exist but are
unowned, so both lookups yield 0; the parentless owned node 4 also yields
0. -/
theorem C9_parent_lookup_capability_filtered_witness :
    node_get_parent exStParent 1 = 0 ∧ node_get_parent_scene exStParent 1 = 0 ∧
    node_get_parent exStParent 4 = 0 :=
  ⟨(((C9_parent_lookup_capability_filtered exStParent 1).1
      { resourceType := .node, parent := 2, parentScene := 3 } (by decide)).2.1
      (by decide) (by decide)),
   (((C9_parent_lookup_capability_filtered exStParent 1).1
      { resourceType := .node, parent := 2, parentScene := 3 } (by decide)).2.2.2
      (by decide) (by decide)),
   (((C9_parent_lookup_capability_filtered exStParent 4).1
      { resourceType := .node } (by decide)).1 rfl)⟩

/-- C10: for an authorized parent, node_get_children writes exactly the
first k capability-visible children in raw sibling order where
k = min(maxCount, number visible), returns exactly k — never the total
visible count when it exceeds maxCount — and never writes more than
maxCount ids. -/
theorem C10_children_truncated_to_max (st : EngineState) (nodeId maxCount : Nat)
    (node : Resource) (h : getScriptResource st .node nodeId = some node) :
    (node_get_children st nodeId maxCount).2 =
      (((rawChildren st node).filter (fun p => st.resourceIds.contains p.1)).map Prod.fst).take maxCount ∧
    (node_get_children st nodeId maxCount).1 =
      (((((rawChildren st node).filter (fun p => st.resourceIds.contains p.1)).map Prod.fst).take maxCount).length : Int) ∧
    ((node_get_children st nodeId maxCount).2).length ≤ maxCount := by
  have hspec := getScriptChildrenLoop_spec st.resourceIds maxCount (rawChildren st node) 0
    (Nat.zero_le _)
  simp only [Nat.sub_zero, Nat.zero_add] at hspec
  have hch : getScriptChildren st node maxCount =
      ((((rawChildren st node).filter (fun p => st.resourceIds.contains p.1)).map Prod.fst).take maxCount,
       ((((rawChildren st node).filter (fun p => st.resourceIds.contains p.1)).map Prod.fst).take maxCount).length) := by
    unfold getScriptChildren
    rw [hspec]
  refine ⟨?_, ?_, ?_⟩
  · unfold node_get_children
    rw [h]
    show (getScriptChildren st node maxCount).1 = _
    rw [hch]
  · unfold node_get_children
    rw [h]
    show ((getScriptChildren st node maxCount).2 : Int) = _
    rw [hch]
  · unfold node_get_children
    rw [h]
    show ((getScriptChildren st node maxCount).1).length ≤ maxCount
    rw [hch]
    exact List.length_take_le _ _

/-- C10 witness: node 20 has visible children 1, 3, 5; with maxCount 2
exactly [1, 3] is written and 2 returned, not the visible total 3. -/
theorem C10_children_truncated_to_max_witness :
    (node_get_children exHier 20 2).2 = [1, 3] ∧
    (node_get_children exHier 20 2).1 = 2 ∧
    ((node_get_children exHier 20 2).2).length ≤ 2 :=
  ⟨((C10_children_truncated_to_max exHier 20 2 exParentNode (by decide)).1).trans (by decide),
   ((C10_children_truncated_to_max exHier 20 2 exParentNode (by decide)).2.1).trans (by decide),
   (C10_children_truncated_to_max exHier 20 2 exParentNode (by decide)).2.2⟩

/-- C2: evaluation at the failing input.  Creating a material whose
alphaMode u32 is 99 neither returns 0 nor is handled as a decode error:
the call raises an uncaught ReferenceError (the merge-conflict-broken
readTextureInfo) before the alphaMode slot is even read, the exception
escapes the ABI call, and the registry is left unchanged — no material is
registered, but no 0 is returned either, and no alphaMode validation
exists on the path. -/
theorem C2_material_call_raises_uncaught :
    world_create_material (matMem 99) exMatSt 0 =
      (.error .ReferenceError, exMatSt) ∧
    ((world_create_material (matMem 99) exMatSt 0).2).resourceMap.length =
      exMatSt.resourceMap.length :=
  ⟨rfl, rfl⟩

/-- C3: evaluation at the failing input.  In exHier the scene's
capability-visible children are [1, 3, 5] (count 3), so the claim expects
scene_get_node(10, 1) = 3; the code returns 0 because scriptGetChildAt
stops at the unowned node 2 instead of skipping over it. -/
theorem C3_get_child_at_does_not_skip_at_index :
    scene_get_node_count exHier 10 = 3 ∧
    (scene_get_nodes exHier 10 9).2 = [1, 3, 5] ∧
    ((((rawChildren exHier exScene).filter
        (fun p => exHier.resourceIds.contains p.1)).map Prod.fst))[1]? = some 3 ∧
    scene_get_node exHier 10 1 = 0 ∧
    node_get_child exHier 20 1 = 0 := by
  decide

/-- C4: world_create_mesh parses and validates every primitive before
allocating anything, so if validation of any primitive fails the call
returns -1 with the state — in particular the registry and its size —
unchanged. -/
theorem C4_mesh_validates_all_before_allocating (mem : Mem) (st : EngineState)
    (propsPtr : Nat)
    (h : ∃ i, i < mem.u32 (propsPtr + 4) ∧
      parseMeshPrimitive mem st (mem.u32 propsPtr) i = none) :
    world_create_mesh mem st propsPtr = (-1, st) := by
  obtain ⟨i, h1, h2⟩ := h
  unfold world_create_mesh
  rw [parseMeshPrimitives_none_of_bad mem st (mem.u32 propsPtr) (mem.u32 (propsPtr + 4)) 0
    ⟨i, Nat.zero_le i, by omega, h2⟩]

/-- C4 witness: a two-primitive mesh whose first primitive validates and
whose second has the out-of-range mode 99 registers nothing — not even
the valid first primitive. -/
theorem C4_mesh_validates_all_before_allocating_witness :
    world_create_mesh exMeshMem exMeshSt 0 = (-1, exMeshSt) ∧
    parseMeshPrimitive exMeshMem exMeshSt 100 0 ≠ none :=
  ⟨C4_mesh_validates_all_before_allocating exMeshMem exMeshSt 0 ⟨1, by decide, by decide⟩,
   by decide⟩

/-- C5: evaluation at the failing inputs.  create_light with the unknown
light type 99 returns -1 rather than the 0 null id the u32 convention
calls for, and world_create_mesh's validation failures also return -1 —
its own catch arm is the path that returns 0. -/
theorem C5_id_returning_calls_fail_with_negative :
    create_light exStA 99 = (-1, exStA) ∧
    ¬((create_light exStA 99).1 = 0) ∧
    (world_create_mesh exMeshMem exMeshSt 0).1 = -1 ∧
    ¬((world_create_mesh exMeshMem exMeshSt 0).1 = 0) := by
  decide

/-- C8: evaluation at a concrete authorized UIText id.  ui_text_set_color
does update the color from guest memory, but its success path falls off
the end of the function and produces no status value at all, while the
sibling setter ui_text_set_font_size returns the status 0 the ABI
contract specifies. -/
theorem C8_ui_text_set_color_returns_no_status :
    (ui_text_set_color exTextMem exStText 2 100).1 = none ∧
    ((ui_text_set_color exTextMem exStText 2 100).2).resourceMap.lookup 2 =
      some { resourceType := ResourceType.uiText, color := [100, 104, 108, 112] } ∧
    (ui_text_set_font_size exStText 2 7).1 = some 0 := by
  decide

end WebSG
